import Mathlib

/-!
Verification of the blogicum blog application (blog/views.py, blog/models.py)
against its natural-language specification.

The data model (`User`, `Category`, `Post`, `Comment`) is a shallow embedding
of the Django models in blog/models.py; a database instance is a record of
lists of rows.  Each view's queryset/handler logic from blog/views.py is
embedded as an executable function on that database record:

  * `get_posts`             — PostFilterMixin.get_posts
  * `postListQueryset`      — PostListView.get_queryset
  * `categoryPostsQueryset` — CategoryPostsView.get_queryset
  * `postDetailGetObject`   — PostDetailView.get_object
  * `profileQueryset`       — ProfileView.get_queryset
  * `profileView`           — ProfileView with its LoginRequiredMixin
  * `post_update_test_func` — PostUpdateView.test_func
  * `comment_update_test_func`, `comment_delete_test_func`
                            — CommentUpdateView/CommentDeleteView.test_func
  * `commentCreateView`     — CommentCreateView dispatch + form_valid
  * `commentDeleteView`     — CommentDeleteView dispatch/test/delete

Django's `order_by` on a queryset is modelled by `List.insertionSort` with
the corresponding key comparison; `get_object_or_404` by `List.find?` (a
`none` result is the NotFound outcome); the `annotate(comment_count=...)`
step by an optional `comment_count` field on the returned rows, `some`
exactly when the queryset applies the annotate step.
-/

namespace Blogicum

/-- A user row (django.contrib.auth User): identified by id, looked up by
username. -/
structure User where
  id : Nat
  username : String
deriving DecidableEq, Repr

/-- A Category row (blog/models.py): slug is the URL identifier,
is_published the soft-hide flag. -/
structure Category where
  id : Nat
  slug : String
  is_published : Bool
deriving DecidableEq, Repr

/-- A Post row (blog/models.py).  `author` and `category` are nullable
foreign keys (`null=True` in the model), held as optional ids.  `pub_date`
and `created_at` are timestamps, modelled as integers. -/
structure Post where
  id : Nat
  author : Option Nat
  category : Option Nat
  location : Option Nat
  title : String
  text : String
  pub_date : Int
  is_published : Bool
  created_at : Int
deriving DecidableEq, Repr

/-- A Comment row (blog/models.py): `post` and `author` are required
foreign keys. -/
structure Comment where
  id : Nat
  post : Nat
  author : Nat
  text : String
  created_at : Int
deriving DecidableEq, Repr

/-- The database: one list of rows per model. -/
structure DB where
  users : List User
  categories : List Category
  posts : List Post
  comments : List Comment
deriving DecidableEq, Repr

/-- Django `order_by` with a descending key: sort so that elements with the
larger key come first. -/
def sortDescBy {α : Type} (key : α → Int) (l : List α) : List α :=
  List.insertionSort (fun a b => key b ≤ key a) l

/-- The `category__is_published=True` filter: the related-field lookup
follows the foreign key, so a post with a NULL category (or a dangling one)
is excluded. -/
def categoryPublished (db : DB) (p : Post) : Bool :=
  match p.category with
  | none => false
  | some cid =>
    match db.categories.find? (fun c => c.id == cid) with
    | none => false
    | some c => c.is_published

/-- The three public-visibility filters of PostFilterMixin.get_posts:
`pub_date__lte=now`, `is_published=True`, `category__is_published=True`. -/
def publiclyVisible (db : DB) (now : Int) (p : Post) : Bool :=
  decide (p.pub_date ≤ now) && p.is_published && categoryPublished db p

/-- PostFilterMixin.get_posts (blog/views.py lines 19-28): the public
posts, additionally restricted to a category when one is supplied, ordered
by pub_date descending. -/
def get_posts (db : DB) (now : Int) (category : Option Nat) : List Post :=
  sortDescBy (fun p => p.pub_date)
    (db.posts.filter (fun p =>
      publiclyVisible db now p &&
      match category with
      | none => true
      | some cid => p.category == some cid))

/-- `Count('comments')` for one post id: the number of Comment rows whose
post reference is that id. -/
def countComments (db : DB) (pid : Nat) : Nat :=
  (db.comments.filter (fun c => c.post == pid)).length

/-- A post as returned from a listing queryset: `comment_count` is `some`
exactly when the queryset applied `annotate(comment_count=Count('comments'))`. -/
structure AnnPost where
  post : Post
  comment_count : Option Nat
deriving DecidableEq, Repr

/-- The `annotate(comment_count=Count('comments'))` step. -/
def annotateCount (db : DB) (l : List Post) : List AnnPost :=
  l.map (fun p => { post := p, comment_count := some (countComments db p.id) })

/-- A queryset result without the annotate step: no comment_count attribute. -/
def plainResults (l : List Post) : List AnnPost :=
  l.map (fun p => { post := p, comment_count := none })

/-- PostListView.get_queryset (blog/views.py lines 36-41): the public posts
with comment_count, re-ordered by `order_by('-created_at')` (which replaces
the `-pub_date` ordering of get_posts). -/
def postListQueryset (db : DB) (now : Int) : List AnnPost :=
  sortDescBy (fun a => a.post.created_at)
    (annotateCount db (get_posts db now none))

/-- `get_object_or_404(Category.objects.filter(is_published=True), slug=...)`:
the first published category with the given slug. -/
def findCategory (db : DB) (slug : String) : Option Category :=
  db.categories.find? (fun c => c.is_published && c.slug == slug)

/-- CategoryPostsView.get_queryset (blog/views.py lines 49-52): NotFound
(`none`) when no published category carries the slug; otherwise
`get_posts(category)` — with no annotate step. -/
def categoryPostsQueryset (db : DB) (now : Int) (slug : String) :
    Option (List AnnPost) :=
  match findCategory db slug with
  | none => none
  | some cat => some (plainResults (get_posts db now (some cat.id)))

/-- PostDetailView.get_object (blog/views.py lines 66-69):
`get_object_or_404(self.get_posts(), id=post_id)`; `none` is NotFound. -/
def postDetailGetObject (db : DB) (now : Int) (pid : Nat) : Option Post :=
  (get_posts db now none).find? (fun p => p.id == pid)

/-- ProfileView.get_queryset (blog/views.py lines 151-154): 404 when the
username resolves to no user; otherwise all of that user's posts, with
comment_count, ordered by `order_by('-created_at')`. -/
def profileQueryset (db : DB) (username : String) : Option (List AnnPost) :=
  match db.users.find? (fun u => u.username == username) with
  | none => none
  | some u =>
    some (sortDescBy (fun a => a.post.created_at)
      (annotateCount db (db.posts.filter (fun p => p.author == some u.id))))

/-- Outcome of a GET of the profile page. -/
inductive ProfileResponse where
  | loginRedirect
  | notFound
  | page (posts : List AnnPost)
deriving DecidableEq, Repr

/-- ProfileView (blog/views.py lines 146-154): LoginRequiredMixin redirects
an anonymous viewer to login before the queryset is ever evaluated. -/
def profileView (db : DB) (viewer : Option Nat) (username : String) :
    ProfileResponse :=
  match viewer with
  | none => ProfileResponse.loginRedirect
  | some _ =>
    match profileQueryset db username with
    | none => ProfileResponse.notFound
    | some l => ProfileResponse.page l

/-- True exactly on the login-redirect outcome. -/
def isLoginRedirect : ProfileResponse → Bool
  | ProfileResponse.loginRedirect => true
  | _ => false

/-- Formalisation of the SPEC's visibility predicate (spec section 4.1),
stated from the spec's words for comparison with the code: public
visibility OR the viewer is the post's author. -/
def is_visible_spec (db : DB) (now : Int) (p : Post) (viewer : Nat) : Bool :=
  publiclyVisible db now p || (p.author == some viewer)

/-- PostUpdateView.test_func (blog/views.py lines 105-107):
`request.user.is_authenticated and post.author == request.user`.  The
actor is `none` when anonymous. -/
def post_update_test_func (post : Post) (user : Option Nat) : Bool :=
  user.isSome && (post.author == user)

/-- CommentUpdateView.test_func (blog/views.py lines 215-217):
`request.user == comment.author`. -/
def comment_update_test_func (c : Comment) (user : Option Nat) : Bool :=
  user == some c.author

/-- CommentDeleteView.test_func (blog/views.py lines 230-232):
`request.user == comment.author`. -/
def comment_delete_test_func (c : Comment) (user : Option Nat) : Bool :=
  user == some c.author

/-- Outcome of a comment-creation request. -/
inductive CreateCommentResult where
  | notFound
  | created (c : Comment)
deriving DecidableEq, Repr

/-- CommentCreateView (blog/views.py lines 185-192): dispatch does
`get_object_or_404(Post, id=post_id)` (NotFound before anything is
written); form_valid sets `author` and `post` on the instance together
with the submitted text, and the save appends the row. -/
def commentCreateView (db : DB) (actor pid : Nat) (text : String)
    (newId : Nat) (now : Int) : CreateCommentResult × DB :=
  match db.posts.find? (fun p => p.id == pid) with
  | none => (CreateCommentResult.notFound, db)
  | some post =>
    let c : Comment :=
      { id := newId, post := post.id, author := actor, text := text,
        created_at := now }
    (CreateCommentResult.created c,
     { db with comments := db.comments ++ [c] })

/-- Outcome of a comment-deletion request. -/
inductive DeleteCommentResult where
  | loginRedirect
  | notFound
  | forbidden
  | deleted
deriving DecidableEq, Repr

/-- CommentDeleteView (blog/views.py lines 223-240): LoginRequiredMixin
first, then get_object (404 when the comment id resolves to nothing), then
UserPassesTestMixin with test_func, then the delete of that row. -/
def commentDeleteView (db : DB) (actor : Option Nat) (cid : Nat) :
    DeleteCommentResult × DB :=
  match actor with
  | none => (DeleteCommentResult.loginRedirect, db)
  | some uid =>
    match db.comments.find? (fun c => c.id == cid) with
    | none => (DeleteCommentResult.notFound, db)
    | some c =>
      if c.author == uid then
        (DeleteCommentResult.deleted,
         { db with comments := db.comments.filter (fun x => !(x.id == cid)) })
      else (DeleteCommentResult.forbidden, db)

/-- `paginate_by = NUM_POST` (blog/views.py line 16). -/
def NUM_POST : Nat := 10

/-- The framework's paginator (an external collaborator per the spec):
page 1 of a queryset paginated by NUM_POST is its first NUM_POST rows. -/
def firstPage {α : Type} (l : List α) : List α := l.take NUM_POST

/-! ### Concrete database instances used as test inputs -/

/-- A user, id 1. -/
def user1 : User := { id := 1, username := "alice" }

/-- A published category, id 1. -/
def cat1 : Category := { id := 1, slug := "c", is_published := true }

/-- An UNPUBLISHED post in a published category, authored by user 1,
with a past pub_date. -/
def post1 : Post :=
  { id := 1, author := some 1, category := some 1, location := none,
    title := "t1", text := "x", pub_date := 0, is_published := false,
    created_at := 0 }

/-- Database holding only the unpublished `post1`. -/
def exDB1 : DB :=
  { users := [user1], categories := [cat1], posts := [post1], comments := [] }

/-- A published category, id 2. -/
def cat2 : Category := { id := 2, slug := "d", is_published := true }

/-- A public post with the LATER pub_date (5) but the EARLIER created_at (1). -/
def post2a : Post :=
  { id := 2, author := some 1, category := some 2, location := none,
    title := "t2", text := "x", pub_date := 5, is_published := true,
    created_at := 1 }

/-- A public post with the EARLIER pub_date (1) but the LATER created_at (5). -/
def post2b : Post :=
  { id := 3, author := some 1, category := some 2, location := none,
    title := "t3", text := "x", pub_date := 1, is_published := true,
    created_at := 5 }

/-- Database with two public posts whose pub_date order is the reverse of
their created_at order. -/
def exDB2 : DB :=
  { users := [user1], categories := [cat2], posts := [post2a, post2b],
    comments := [] }

/-- A comment on post 1 by user 1, id 1. -/
def comment1 : Comment :=
  { id := 1, post := 1, author := 1, text := "a", created_at := 0 }

/-- A sibling comment on post 1 by user 1, id 2. -/
def comment2 : Comment :=
  { id := 2, post := 1, author := 1, text := "b", created_at := 1 }

/-- Database with two sibling comments on post 1. -/
def exDB8 : DB :=
  { users := [user1], categories := [cat1], posts := [post1],
    comments := [comment1, comment2] }

/-- `exDB8` after comment 1 is removed. -/
def exDB8A : DB :=
  { users := [user1], categories := [cat1], posts := [post1],
    comments := [comment2] }

/-- An UNPUBLISHED category with slug "h". -/
def cat10 : Category := { id := 9, slug := "h", is_published := false }

/-- Database whose only category is the unpublished `cat10`. -/
def exDB10 : DB :=
  { users := [], categories := [cat10], posts := [], comments := [] }

/-! ### Helper lemmas -/

/-- Membership is preserved by the descending sort. -/
theorem mem_sortDescBy {α : Type} (key : α → Int) (l : List α) (a : α) :
    a ∈ sortDescBy key l ↔ a ∈ l :=
  (List.perm_insertionSort _ l).mem_iff

/-- The descending sort leaves the list pairwise ordered by its key. -/
theorem sortDescBy_pairwise {α : Type} (key : α → Int) (l : List α) :
    (sortDescBy key l).Pairwise (fun a b => key b ≤ key a) := by
  haveI : IsTotal α (fun a b => key b ≤ key a) :=
    ⟨fun a b => le_total (key b) (key a)⟩
  haveI : IsTrans α (fun a b => key b ≤ key a) :=
    ⟨fun a b c h1 h2 => le_trans h2 h1⟩
  exact List.sorted_insertionSort _ l

/-! ### Claim C1 — visibility predicate and the detail fetch -/

/-- Claim C1 counterexample: `post1` is unpublished, its author is user 1,
and the spec's visibility predicate grants the author visibility; yet the
detail fetch (PostDetailView.get_object) returns NotFound even though the
viewer is the author — the code has no author bypass. -/
theorem detail_fetch_author_bypass_cex :
    is_visible_spec exDB1 10 post1 1 = true ∧
    post1.author = some 1 ∧
    postDetailGetObject exDB1 10 1 = none :=
  ⟨rfl, rfl, rfl⟩

/-- Claim C1 (amended): the detail fetch applies only the public filters.
A post is returned by `postDetailGetObject` only when it is in the
database, has the requested id, and is publicly visible (is_published,
category published, pub_date in the past); conversely any stored post with
the requested id passing those filters makes the fetch succeed.  No viewer
enters the computation: the author of an unpublished or future-dated post
gets NotFound like everyone else. -/
theorem detail_fetch_public_only (db : DB) (now : Int) (pid : Nat) :
    (∀ p, postDetailGetObject db now pid = some p →
        p ∈ db.posts ∧ p.id = pid ∧ publiclyVisible db now p = true) ∧
    ((∃ p ∈ db.posts, p.id = pid ∧ publiclyVisible db now p = true) →
        (postDetailGetObject db now pid).isSome = true) := by
  constructor
  · intro p h
    have hid : p.id = pid := by simpa using List.find?_some h
    have hm := List.mem_of_find?_eq_some h
    rw [get_posts, mem_sortDescBy, List.mem_filter] at hm
    refine ⟨hm.1, hid, ?_⟩
    simpa using hm.2
  · rintro ⟨p, hmem, hid, hvis⟩
    rw [postDetailGetObject, List.find?_isSome]
    refine ⟨p, ?_, by simp [hid]⟩
    rw [get_posts, mem_sortDescBy, List.mem_filter]
    exact ⟨hmem, by simp [hvis]⟩

/-- Witness for C1 (amended): in `exDB2` the public post `post2a` (id 2)
is found by the detail fetch. -/
theorem detail_fetch_public_only_witness :
    (postDetailGetObject exDB2 10 2).isSome = true :=
  (detail_fetch_public_only exDB2 10 2).2 (by decide)

/-! ### Claim C2 — ordering of the main listing -/

/-- Claim C2 counterexample: in `exDB2` the main listing is NOT ordered by
pub_date descending (the final `order_by('-created_at')` of
PostListView.get_queryset overrides it: the result has pub_dates 1, 5). -/
theorem main_listing_not_pub_date_ordered_cex :
    ¬ (postListQueryset exDB2 10).Pairwise
        (fun a b => b.post.pub_date ≤ a.post.pub_date) := by
  decide

/-- Claim C2 (amended): `get_posts` itself orders by pub_date descending,
but the main post listing (PostListView.get_queryset) re-orders its result
by created_at descending, which is the order actually returned. -/
theorem main_listing_created_at_desc (db : DB) (now : Int) :
    (get_posts db now none).Pairwise (fun a b => b.pub_date ≤ a.pub_date) ∧
    (postListQueryset db now).Pairwise
      (fun a b => b.post.created_at ≤ a.post.created_at) :=
  ⟨sortDescBy_pairwise _ _, sortDescBy_pairwise _ _⟩

/-! ### Claim C3 — comment_count on the listings -/

/-- Claim C3 counterexample: the listing for category slug "d" in `exDB2`
has an element that does NOT carry comment_count equal to the number of
its comments — CategoryPostsView.get_queryset returns `get_posts(category)`
with no annotate step. -/
theorem category_listing_no_count_cex :
    ¬ (∀ a ∈ (categoryPostsQueryset exDB2 10 "d").getD [],
        a.comment_count = some (countComments exDB2 a.post.id)) := by
  decide

/-- Claim C3 (amended): only the MAIN listing carries the derived
comment_count (equal to the number of Comment rows referencing the post);
the per-category listing is returned without the comment_count attribute. -/
theorem listing_comment_count (db : DB) (now : Int) :
    (∀ a ∈ postListQueryset db now,
        a.comment_count = some (countComments db a.post.id)) ∧
    (∀ slug l, categoryPostsQueryset db now slug = some l →
        ∀ a ∈ l, a.comment_count = none) := by
  constructor
  · intro a ha
    rw [postListQueryset, mem_sortDescBy] at ha
    rcases List.mem_map.mp ha with ⟨p, _, rfl⟩
    rfl
  · intro slug l hl a ha
    unfold categoryPostsQueryset at hl
    split at hl
    · exact absurd hl (by simp)
    · cases hl
      rcases List.mem_map.mp ha with ⟨p, _, rfl⟩
      rfl

/-- Witness for C3 (amended): the element of the main listing of `exDB2`
holding `post2b` carries comment_count 0, the number of its comments. -/
theorem listing_comment_count_witness :
    ({ post := post2b, comment_count := some 0 } : AnnPost).comment_count
      = some (countComments exDB2 post2b.id) :=
  (listing_comment_count exDB2 10).1
    { post := post2b, comment_count := some 0 } (by decide)

/-! ### Claim C4 — the profile queryset -/

/-- Claim C4 counterexample: the profile listing of user "alice" in `exDB2`
is NOT ordered by pub_date descending (ProfileView.get_queryset orders by
`order_by('-created_at')`; the result has pub_dates 1, 5). -/
theorem profile_not_pub_date_ordered_cex :
    ¬ ((profileQueryset exDB2 "alice").getD []).Pairwise
        (fun a b => b.post.pub_date ≤ a.post.pub_date) := by
  decide

/-- Claim C4 (amended): `profileQueryset` fails with NotFound exactly when
the username resolves to no user; otherwise it returns exactly the posts
authored by that user (unpublished and future-dated ones included), each
annotated with comment_count, ordered by created_at descending (not
pub_date descending). -/
theorem profile_queryset_spec (db : DB) (username : String) :
    (profileQueryset db username = none ↔
        db.users.find? (fun u => u.username == username) = none) ∧
    (∀ u, db.users.find? (fun u => u.username == username) = some u →
      ∀ l, profileQueryset db username = some l →
        (∀ a ∈ l, a.post ∈ db.posts ∧ a.post.author = some u.id ∧
            a.comment_count = some (countComments db a.post.id)) ∧
        (∀ p ∈ db.posts, p.author = some u.id → ∃ a ∈ l, a.post = p) ∧
        l.Pairwise (fun a b => b.post.created_at ≤ a.post.created_at)) := by
  cases h : db.users.find? (fun u => u.username == username) with
  | none =>
    constructor
    · unfold profileQueryset
      rw [h]
      simp
    · intro u hu
      simp at hu
  | some u0 =>
    constructor
    · unfold profileQueryset
      rw [h]
      simp
    · intro u hu
      cases hu
      intro l hl
      unfold profileQueryset at hl
      rw [h] at hl
      cases hl
      refine ⟨?_, ?_, sortDescBy_pairwise _ _⟩
      · intro a ha
        rw [mem_sortDescBy] at ha
        rcases List.mem_map.mp ha with ⟨p, hp, rfl⟩
        rcases List.mem_filter.mp hp with ⟨hmem, hauth⟩
        exact ⟨hmem, by simpa using hauth, rfl⟩
      · intro p hp hauth
        refine ⟨{ post := p, comment_count := some (countComments db p.id) },
          ?_, rfl⟩
        rw [mem_sortDescBy]
        exact List.mem_map.mpr
          ⟨p, List.mem_filter.mpr ⟨hp, by simp [hauth]⟩, rfl⟩

/-- Witness for C4 (amended): applied to `exDB2` and "alice", whose profile
listing is concretely `[post2b, post2a]` with comment counts; `post2a`
appears in it. -/
theorem profile_queryset_spec_witness :
    ∃ a ∈ [({ post := post2b, comment_count := some 0 } : AnnPost),
           { post := post2a, comment_count := some 0 }], a.post = post2a := by
  have h := (profile_queryset_spec exDB2 "alice").2 user1 (by decide)
    [{ post := post2b, comment_count := some 0 },
     { post := post2a, comment_count := some 0 }] (by decide)
  exact h.2.1 post2a (by decide) (by decide)

/-! ### Claim C5 — authentication on the profile page -/

/-- Claim C5 counterexample: an unauthenticated (absent) viewer requesting
the profile of "alice" IS redirected to login — ProfileView carries
LoginRequiredMixin, so reading a profile requires an actor. -/
theorem anonymous_profile_redirected_cex :
    profileView exDB2 none "alice" = ProfileResponse.loginRedirect :=
  rfl

/-- Claim C5 (amended): reading a profile requires an authenticated actor:
every anonymous request is redirected to login, and no authenticated
request is. -/
theorem profile_read_requires_login (db : DB) (username : String) :
    profileView db none username = ProfileResponse.loginRedirect ∧
    ∀ uid : Nat, isLoginRedirect (profileView db (some uid) username) = false := by
  refine ⟨rfl, fun uid => ?_⟩
  unfold profileView
  cases profileQueryset db username <;> rfl

/-! ### Claim C6 — only the author may modify -/

/-- Claim C6: for every actor distinct from the entity's author, the
authorization predicate is false — for Post edit
(PostUpdateView.test_func) and Comment edit/delete
(CommentUpdateView/CommentDeleteView.test_func) — and the comment
deletion view leaves the database unchanged (Forbidden outcome) when the
comment it resolves belongs to someone else. -/
theorem can_modify_only_author (post : Post) (c : Comment) (actor : Nat)
    (hp : post.author ≠ some actor) (hc : c.author ≠ actor) :
    post_update_test_func post (some actor) = false ∧
    comment_update_test_func c (some actor) = false ∧
    comment_delete_test_func c (some actor) = false ∧
    ∀ db : DB, db.comments.find? (fun x => x.id == c.id) = some c →
      commentDeleteView db (some actor) c.id =
        (DeleteCommentResult.forbidden, db) := by
  have hcb : (c.author == actor) = false := by
    simp [hc]
  refine ⟨?_, ?_, ?_, ?_⟩
  · simp [post_update_test_func, hp]
  · simp [comment_update_test_func]
    exact fun h => hc h.symm
  · simp [comment_delete_test_func]
    exact fun h => hc h.symm
  · intro db h
    simp [commentDeleteView, h, hcb]

/-- Witness for C6: user 2 is not the author of `post1` or `comment1`
(both authored by user 1), and all three predicates reject them. -/
theorem can_modify_only_author_witness :
    post_update_test_func post1 (some 2) = false ∧
    comment_update_test_func comment1 (some 2) = false ∧
    comment_delete_test_func comment1 (some 2) = false := by
  have h := can_modify_only_author post1 comment1 2 (by decide) (by decide)
  exact ⟨h.1, h.2.1, h.2.2.1⟩

/-! ### Claim C7 — comment creation -/

/-- Claim C7: creating a comment on a post id that resolves to no Post
fails with NotFound and leaves the database (in particular the comment
store) unchanged; when the parent post exists, exactly one comment row is
appended, whose author, post reference and text are set together. -/
theorem comment_create_spec (db : DB) (actor pid : Nat) (text : String)
    (newId : Nat) (now : Int) :
    (db.posts.find? (fun p => p.id == pid) = none →
        commentCreateView db actor pid text newId now =
          (CreateCommentResult.notFound, db)) ∧
    (∀ post, db.posts.find? (fun p => p.id == pid) = some post →
        ∃ c : Comment,
          commentCreateView db actor pid text newId now =
            (CreateCommentResult.created c,
             { db with comments := db.comments ++ [c] }) ∧
          c.author = actor ∧ c.post = pid ∧ c.text = text) := by
  constructor
  · intro h
    simp [commentCreateView, h]
  · intro post h
    have hid : post.id = pid := by simpa using List.find?_some h
    refine ⟨{ id := newId, post := post.id, author := actor, text := text,
              created_at := now }, ?_, rfl, hid, rfl⟩
    simp [commentCreateView, h]

/-- Witness for C7: in `exDB2`, post id 2 exists, and creating a comment
on it by user 7 appends exactly that comment row. -/
theorem comment_create_spec_witness :
    ∃ c : Comment,
      commentCreateView exDB2 7 2 "hi" 9 3 =
        (CreateCommentResult.created c,
         { exDB2 with comments := exDB2.comments ++ [c] }) ∧
      c.author = 7 ∧ c.post = 2 ∧ c.text = "hi" :=
  (comment_create_spec exDB2 7 2 "hi" 9 3).2 post2a (by decide)

/-! ### Claim C8 — comment deletion frame property -/

/-- Claim C8: when a comment deletion succeeds, the post, user and
category stores are untouched; no comment with the deleted id remains;
every other comment survives; and no comment appears that was not there
before. -/
theorem comment_delete_frame (db db2 : DB) (actor : Option Nat) (cid : Nat)
    (h : commentDeleteView db actor cid = (DeleteCommentResult.deleted, db2)) :
    db2.posts = db.posts ∧ db2.users = db.users ∧
    db2.categories = db.categories ∧
    (∀ x ∈ db2.comments, x.id ≠ cid) ∧
    (∀ x ∈ db.comments, x.id ≠ cid → x ∈ db2.comments) ∧
    (∀ x ∈ db2.comments, x ∈ db.comments) := by
  cases actor with
  | none => simp [commentDeleteView] at h
  | some uid =>
    cases hf : db.comments.find? (fun c => c.id == cid) with
    | none =>
      simp [commentDeleteView, hf] at h
    | some c =>
      by_cases hb : (c.author == uid) = true
      · have hstep : commentDeleteView db (some uid) cid =
            (DeleteCommentResult.deleted,
             { db with
                comments := db.comments.filter (fun x => !(x.id == cid)) }) := by
          simp [commentDeleteView, hf, hb]
        rw [hstep] at h
        have hdb2 :
            db2 = { db with
              comments := db.comments.filter (fun x => !(x.id == cid)) } := by
          have := congrArg Prod.snd h
          exact this.symm
        subst hdb2
        refine ⟨rfl, rfl, rfl, ?_, ?_, ?_⟩
        · intro x hx
          have := (List.mem_filter.mp hx).2
          simpa using this
        · intro x hx hne
          exact List.mem_filter.mpr ⟨hx, by simpa using hne⟩
        · intro x hx
          exact (List.mem_filter.mp hx).1
      · simp [commentDeleteView, hf, hb] at h

/-- Witness for C8: user 1 deletes their comment 1 in `exDB8`; the result
is `exDB8A`, which keeps `post1` and the sibling `comment2`. -/
theorem comment_delete_frame_witness :
    exDB8A.posts = exDB8.posts ∧ exDB8A.users = exDB8.users ∧
    exDB8A.categories = exDB8.categories ∧
    (∀ x ∈ exDB8A.comments, x.id ≠ 1) ∧
    (∀ x ∈ exDB8.comments, x.id ≠ 1 → x ∈ exDB8A.comments) ∧
    (∀ x ∈ exDB8A.comments, x ∈ exDB8.comments) :=
  comment_delete_frame exDB8 exDB8A (some 1) 1 (by decide)

/-! ### Claim C9 — page size of the listings -/

/-- Claim C9: each of the three paginated listings (main index,
per-category, profile) yields at most NUM_POST = 10 posts on its first
page. -/
theorem listing_page_size (db : DB) (now : Int) (slug username : String) :
    (firstPage (postListQueryset db now)).length ≤ NUM_POST ∧
    (∀ l, categoryPostsQueryset db now slug = some l →
        (firstPage l).length ≤ NUM_POST) ∧
    (∀ l, profileQueryset db username = some l →
        (firstPage l).length ≤ NUM_POST) := by
  refine ⟨?_, fun l _ => ?_, fun l _ => ?_⟩ <;>
    · simp [firstPage, NUM_POST, List.length_take]

/-- Witness for C9: the category listing of slug "d" in `exDB2` has two
rows; its first page is within the bound. -/
theorem listing_page_size_witness :
    (firstPage [({ post := post2a, comment_count := none } : AnnPost),
                { post := post2b, comment_count := none }]).length
      ≤ NUM_POST :=
  (listing_page_size exDB2 10 "d" "alice").2.1
    [{ post := post2a, comment_count := none },
     { post := post2b, comment_count := none }] (by decide)

/-! ### Claim C10 — category listing NotFound conditions -/

/-- Claim C10: the per-category listing fails with NotFound exactly when
no published category carries the slug — a missing slug and an
unpublished category are indistinguishable, and no viewer enters the
computation. -/
theorem category_listing_notfound (db : DB) (now : Int) (slug : String) :
    categoryPostsQueryset db now slug = none ↔
      ∀ c ∈ db.categories, c.slug = slug → c.is_published = false := by
  unfold categoryPostsQueryset findCategory
  cases hf : db.categories.find? (fun c => c.is_published && c.slug == slug) with
  | none =>
    rw [List.find?_eq_none] at hf
    simp only [iff_true_intro rfl, true_iff]
    intro c hc hslug
    have := hf c hc
    simp only [Bool.and_eq_true, beq_iff_eq, not_and] at this
    cases hpub : c.is_published with
    | false => rfl
    | true => exact absurd hslug (this hpub)
  | some c0 =>
    have h1 := List.find?_some hf
    have h2 := List.mem_of_find?_eq_some hf
    simp only [Bool.and_eq_true, beq_iff_eq] at h1
    constructor
    · intro h
      exact absurd h (by simp)
    · intro hall
      exact absurd h1.1 (by simp [hall c0 h2 h1.2])

/-- Witness for C10: `exDB10` holds one category with slug "h", but it is
unpublished, so the listing for "h" is NotFound. -/
theorem category_listing_notfound_witness :
    categoryPostsQueryset exDB10 10 "h" = none :=
  (category_listing_notfound exDB10 10 "h").mpr (by decide)

end Blogicum
